import Mathlib

/-!
Shallow embedding of the event plugin pipeline of this repository:
the classifier plugin (SimpleEventPlugin), the stateful selection plugin
(SelectEventPlugin), the registration-name construction
(addEventTypeNameToConfig) and the simulator's propagation-mode choice
(ReactTestUtils.makeSimulator).

DOM nodes, fibers (UI-tree instances) and element identities are modelled
as natural numbers; JS `null`/`undefined` is `Option.none`.  Machine side
effects (the DEV warning) are returned explicitly.
-/

namespace ReactEvents

/-- Phased registration names of a DispatchConfig
(`{bubbled, captured}` in the source). -/
structure PhasedNames where
  bubbled : String
  captured : String
  deriving DecidableEq, Repr

/-- A per-logical-event dispatch configuration.  In the JS source a config
object either has a `phasedRegistrationNames` key or a
`registrationName` (direct) key; an absent key is `none` here.
`isInteractive` is `none` when the source object does not set the field
(the select config does not). -/
structure DispatchConfig where
  phasedRegistrationNames : Option PhasedNames
  directRegistrationName : Option String
  dependencies : List String
  isInteractive : Option Bool
  deriving DecidableEq, Repr

/-- The JS expression `event[0].toUpperCase() + event.slice(1)` from
`addEventTypeNameToConfig` (the names it is applied to are nonempty and
ASCII, where `Char.toUpper` agrees with JS `toUpperCase`). -/
def capitalize (event : String) : String :=
  match event.data with
  | [] => ""
  | c :: rest => String.mk (c.toUpper :: rest)

/-- The function `addEventTypeNameToConfig` from the classifier plugin source: builds
the DispatchConfig with bubble name `on` + Capitalized, capture name
bubble + `Capture`, and the single dependency `top` + Capitalized. -/
def addEventTypeNameToConfig (event : String) (isInteractive : Bool) :
    DispatchConfig :=
  let capitalizedEvent := capitalize event
  let onEvent := "on" ++ capitalizedEvent
  let topEvent := "top" ++ capitalizedEvent
  { phasedRegistrationNames :=
      some { bubbled := onEvent, captured := onEvent ++ "Capture" }
    directRegistrationName := none
    dependencies := [topEvent]
    isInteractive := some isInteractive }

/-- The list `interactiveEventTypeNames` from the classifier plugin source. -/
def interactiveEventTypeNames : List String :=
  ["blur", "cancel", "click", "close", "contextMenu", "copy", "cut",
   "doubleClick", "dragEnd", "dragStart", "drop", "focus", "input",
   "invalid", "keyDown", "keyPress", "keyUp", "mouseDown", "mouseUp",
   "paste", "pause", "play", "rateChange", "reset", "seeked", "submit",
   "touchCancel", "touchEnd", "touchStart", "volumeChange"]

/-- The list `nonInteractiveEventTypeNames` from the classifier plugin source. -/
def nonInteractiveEventTypeNames : List String :=
  ["abort", "animationEnd", "animationIteration", "animationStart",
   "canPlay", "canPlayThrough", "drag", "dragEnter", "dragExit",
   "dragLeave", "dragOver", "durationChange", "emptied", "encrypted",
   "ended", "error", "load", "loadedData", "loadedMetadata", "loadStart",
   "mouseMove", "mouseOut", "mouseOver", "playing", "progress", "scroll",
   "seeking", "stalled", "suspend", "timeUpdate", "toggle", "touchMove",
   "transitionEnd", "waiting", "wheel"]

/-- The classifier plugin's `eventTypes` table: logical name →
DispatchConfig, filled by `addEventTypeNameToConfig` for every
interactive then non-interactive name. -/
def simpleEventTypes : List (String × DispatchConfig) :=
  interactiveEventTypeNames.map
    (fun e => (e, addEventTypeNameToConfig e true)) ++
  nonInteractiveEventTypeNames.map
    (fun e => (e, addEventTypeNameToConfig e false))

/-- The classifier plugin's `topLevelEventsToDispatchConfig` table:
`top` + Capitalized name → the same DispatchConfig. -/
def topLevelEventsToDispatchConfig : List (String × DispatchConfig) :=
  interactiveEventTypeNames.map
    (fun e => ("top" ++ capitalize e, addEventTypeNameToConfig e true)) ++
  nonInteractiveEventTypeNames.map
    (fun e => ("top" ++ capitalize e, addEventTypeNameToConfig e false))

/-- The list `knownHTMLTopLevelTypes` from the classifier plugin source (used only
in DEV for exhaustiveness validation of the default switch branch). -/
def knownHTMLTopLevelTypes : List String :=
  ["topAbort", "topCancel", "topCanPlay", "topCanPlayThrough", "topClose",
   "topDurationChange", "topEmptied", "topEncrypted", "topEnded",
   "topError", "topInput", "topInvalid", "topLoad", "topLoadedData",
   "topLoadedMetadata", "topLoadStart", "topPause", "topPlay",
   "topPlaying", "topProgress", "topRateChange", "topReset", "topSeeked",
   "topSeeking", "topStalled", "topSubmit", "topSuspend", "topTimeUpdate",
   "topToggle", "topVolumeChange", "topWaiting"]

/-- The synthetic event family shapes the classifier's switch selects
(the imported `Synthetic*Event` constructors; `base` is the generic
`SyntheticEvent`). -/
inductive EventShape where
  | keyboard | focus | mouse | drag | touch | animation | transition
  | ui | wheel | clipboard | base
  deriving DecidableEq, Repr

/-- The native event payload fields the classifier plugin reads:
`nativeEvent.button` and the decoded character code. -/
structure NativeEvent where
  button : Nat
  charCode : Nat
  deriving DecidableEq, Repr

/-- Modelled from the spec: `getEventCharCode` (its source file is not in
the excerpt) returns the decoded character code of a key-character
native event; here the decoded code is carried as a field of the native
event. -/
def getEventCharCode (nativeEvent : NativeEvent) : Nat :=
  nativeEvent.charCode

/-- Case labels of the classifier switch that fall through to
`SyntheticKeyboardEvent` after `topKeyPress`. -/
def keyDownUpKinds : List String := ["topKeyDown", "topKeyUp"]

/-- Case labels selecting `SyntheticFocusEvent`. -/
def focusKinds : List String := ["topBlur", "topFocus"]

/-- Case labels falling through to `SyntheticMouseEvent` after
`topClick`. -/
def mouseFallthroughKinds : List String :=
  ["topDoubleClick", "topMouseDown", "topMouseMove", "topMouseUp",
   "topMouseOut", "topMouseOver", "topContextMenu"]

/-- Case labels selecting `SyntheticDragEvent`. -/
def dragKinds : List String :=
  ["topDrag", "topDragEnd", "topDragEnter", "topDragExit", "topDragLeave",
   "topDragOver", "topDragStart", "topDrop"]

/-- Case labels selecting `SyntheticTouchEvent`. -/
def touchKinds : List String :=
  ["topTouchCancel", "topTouchEnd", "topTouchMove", "topTouchStart"]

/-- Case labels selecting `SyntheticAnimationEvent`. -/
def animationKinds : List String :=
  ["topAnimationEnd", "topAnimationIteration", "topAnimationStart"]

/-- Case labels selecting `SyntheticClipboardEvent`. -/
def clipboardKinds : List String := ["topCopy", "topCut", "topPaste"]

/-- Every explicit case label of the classifier's switch; any top-level
type with a dispatch config but outside this list reaches the `default`
branch. -/
def switchCaseKinds : List String :=
  ["topKeyPress"] ++ keyDownUpKinds ++ focusKinds ++ ["topClick"] ++
  mouseFallthroughKinds ++ dragKinds ++ touchKinds ++ animationKinds ++
  ["topTransitionEnd", "topScroll", "topWheel"] ++ clipboardKinds

/-- The classifier's switch on `topLevelType`: selects the event-family
shape, or discards the event (`none`), and reports whether the DEV-only
warning of the `default` branch fires (`dev` is the `__DEV__` build
flag).  Returned as a pair (shape choice, warning fired). -/
def selectShape (topLevelType : String) (nativeEvent : NativeEvent)
    (dev : Bool) : Option EventShape × Bool :=
  if topLevelType = "topKeyPress" then
    -- Firefox creates a keypress event for function keys too; discarded.
    if getEventCharCode nativeEvent = 0 then (none, false)
    else (some EventShape.keyboard, false)
  else if topLevelType ∈ keyDownUpKinds then (some EventShape.keyboard, false)
  else if topLevelType ∈ focusKinds then (some EventShape.focus, false)
  else if topLevelType = "topClick" then
    -- Firefox creates a click event on right mouse clicks; discarded.
    if nativeEvent.button = 2 then (none, false)
    else (some EventShape.mouse, false)
  else if topLevelType ∈ mouseFallthroughKinds then (some EventShape.mouse, false)
  else if topLevelType ∈ dragKinds then (some EventShape.drag, false)
  else if topLevelType ∈ touchKinds then (some EventShape.touch, false)
  else if topLevelType ∈ animationKinds then (some EventShape.animation, false)
  else if topLevelType = "topTransitionEnd" then (some EventShape.transition, false)
  else if topLevelType = "topScroll" then (some EventShape.ui, false)
  else if topLevelType = "topWheel" then (some EventShape.wheel, false)
  else if topLevelType ∈ clipboardKinds then (some EventShape.clipboard, false)
  else
    (some EventShape.base,
     dev && !(decide (topLevelType ∈ knownHTMLTopLevelTypes)))

/-- A synthetic event as produced by the classifier plugin:
`EventConstructor.getPooled(dispatchConfig, targetInst, ...)` followed by
`accumulateTwoPhaseDispatches(event)` (recorded by `twoPhase`). -/
structure SimpleSynthetic where
  dispatchConfig : DispatchConfig
  targetInst : Option Nat
  shape : EventShape
  twoPhase : Bool
  deriving DecidableEq, Repr

/-- The classifier's `SimpleEventPlugin.extractEvents`: look up the dispatch config of the
top-level type (absent → no event), run the switch, and when a shape was
selected construct the synthetic event and request two-phase propagation.
The second component records whether the DEV warning fired. -/
def SimpleEventPlugin.extractEvents (topLevelType : String)
    (targetInst : Option Nat) (nativeEvent : NativeEvent) (dev : Bool) :
    Option SimpleSynthetic × Bool :=
  match topLevelEventsToDispatchConfig.lookup topLevelType with
  | none => (none, false)
  | some dispatchConfig =>
    match selectShape topLevelType nativeEvent dev with
    | (none, warned) => (none, warned)
    | (some shape, warned) =>
      (some { dispatchConfig := dispatchConfig, targetInst := targetInst,
              shape := shape, twoPhase := true }, warned)

/-!
## Selection plugin (SelectEventPlugin.js)

`getSelection(node)` in the source branches on platform capabilities
(`'selectionStart' in node && hasSelectionCapabilities(node)`, else
`window.getSelection()`, whose sources are outside the excerpt), so the
whole per-node selection read is an environment oracle supplied with each
native event; its result is either a structural snapshot object or JS
`undefined` (`none`).  `shallowEqual` on two snapshot objects is
structural equality of their fields, and is false when the fresh read is
`undefined`.
-/

/-- A structural snapshot of the current selection, as built by
`getSelection`: either `{start, end}` from a text input, or the
`{anchorNode, anchorOffset, focusNode, focusOffset}` quadruple from the
document selection (nodes as identities). -/
inductive SelSnapshot where
  | range (selStart selEnd : Nat)
  | domSel (anchorNode anchorOffset focusNode focusOffset : Nat)
  deriving DecidableEq, Repr

/-- The target DOM node of a native event as the selection plugin reads
it: its identity, whether `isTextInputElement(node)` holds (that
helper's source is outside the excerpt; carried as a field), and
whether `node.contentEditable === 'true'`. -/
structure TargetNode where
  id : Nat
  isTextInput : Bool
  contentEditableTrue : Bool
  deriving DecidableEq, Repr

/-- One native event as presented to the selection plugin, together with
the environment readings its handling performs: `docListening` is
`doc && isListeningToAllDependencies('onSelect', doc)` for the resolved
document, `activeElementGlobal` is `getActiveElement()`, `getSel` is the
`getSelection` oracle, and `skipSelectionChangeEvent` the module's
legacy-engine capability flag. -/
structure SelectInput where
  topLevelType : String
  targetInst : Option Nat
  targetNode : TargetNode
  docListening : Bool
  activeElementGlobal : Option Nat
  getSel : Nat → Option SelSnapshot
  skipSelectionChangeEvent : Bool

/-- The selection plugin's module-level mutable state: `activeElement`,
`activeElementInst`, `lastSelection`, `mouseDown`. -/
structure SelectState where
  activeElement : Option Nat
  activeElementInst : Option Nat
  lastSelection : Option SelSnapshot
  mouseDown : Bool
  deriving DecidableEq, Repr

/-- The initial values of the selection plugin's module state
(`null`/`null`/`null`/`false`). -/
def initialSelectState : SelectState :=
  { activeElement := none, activeElementInst := none,
    lastSelection := none, mouseDown := false }

/-- The selection plugin's `eventTypes.select` DispatchConfig. -/
def selectEventConfig : DispatchConfig :=
  { phasedRegistrationNames :=
      some { bubbled := "onSelect", captured := "onSelectCapture" }
    directRegistrationName := none
    dependencies :=
      ["topBlur", "topContextMenu", "topFocus", "topKeyDown", "topKeyUp",
       "topMouseDown", "topMouseUp", "topSelectionChange"]
    isInteractive := none }

/-- A synthetic event as produced by `constructSelectEvent`:
`SyntheticEvent.getPooled(eventTypes.select, activeElementInst, ...)`,
then `type` set to `select`, `target` set to the recorded active
element, and `accumulateTwoPhaseDispatches` requested (`twoPhase`). -/
structure SelectSynthetic where
  dispatchConfig : DispatchConfig
  targetInst : Option Nat
  eventType : String
  target : Option Nat
  twoPhase : Bool
  deriving DecidableEq, Repr

/-- The function `constructSelectEvent`: guarded emission attempt.  Returns the new
module state and the optional synthetic event. -/
def constructSelectEvent (inp : SelectInput) (s : SelectState) :
    SelectState × Option SelectSynthetic :=
  if s.mouseDown then (s, none)
  else
    match s.activeElement with
    | none => (s, none)
    | some activeEl =>
      if inp.activeElementGlobal ≠ some activeEl then (s, none)
      else
        -- Only fire when selection has actually changed.
        let currentSelection := inp.getSel activeEl
        let changed : Bool :=
          match s.lastSelection with
          | none => true
          | some last => decide (currentSelection ≠ some last)
        if changed then
          ({ s with lastSelection := currentSelection },
           some { dispatchConfig := selectEventConfig,
                  targetInst := s.activeElementInst,
                  eventType := "select",
                  target := some activeEl,
                  twoPhase := true })
        else (s, none)

/-- The selection plugin's `SelectEventPlugin.extractEvents`: the listener-presence
short-circuit, then the switch over the five tracked native kinds.
Returns the new module state and the optional synthetic event. -/
def SelectEventPlugin.extractEvents (inp : SelectInput) (s : SelectState) :
    SelectState × Option SelectSynthetic :=
  if inp.docListening = false then (s, none)
  else if inp.topLevelType = "topFocus" then
    -- Track the input node that has focus.
    if inp.targetNode.isTextInput ∨ inp.targetNode.contentEditableTrue then
      ({ activeElement := some inp.targetNode.id,
         activeElementInst := inp.targetInst,
         lastSelection := none,
         mouseDown := s.mouseDown }, none)
    else (s, none)
  else if inp.topLevelType = "topBlur" then
    ({ activeElement := none, activeElementInst := none,
       lastSelection := none, mouseDown := s.mouseDown }, none)
  else if inp.topLevelType = "topMouseDown" then
    ({ s with mouseDown := true }, none)
  else if inp.topLevelType = "topContextMenu" ∨
          inp.topLevelType = "topMouseUp" then
    constructSelectEvent inp { s with mouseDown := false }
  else if inp.topLevelType = "topSelectionChange" then
    if inp.skipSelectionChangeEvent then (s, none)
    else constructSelectEvent inp s
  else if inp.topLevelType = "topKeyDown" ∨
          inp.topLevelType = "topKeyUp" then
    constructSelectEvent inp s
  else (s, none)

/-- Runs the selection plugin over a sequence of native events, threading
its module state; returns the final state and the per-event extraction
results in order. -/
def runSelect (inputs : List SelectInput) (s : SelectState) :
    SelectState × List (Option SelectSynthetic) :=
  match inputs with
  | [] => (s, [])
  | i :: rest =>
    let step := SelectEventPlugin.extractEvents i s
    let tail := runSelect rest step.1
    (tail.1, step.2 :: tail.2)

/-- Modelled from the spec: the selection plugin's `extractEvents` with
the listener-presence short-circuit removed — the spec calls that guard
"a performance short-circuit, not a correctness requirement", and this
variant is the comparison point for that refinement claim. -/
def SelectEventPlugin.extractEventsNoListenerGuard (inp : SelectInput)
    (s : SelectState) : SelectState × Option SelectSynthetic :=
  if inp.topLevelType = "topFocus" then
    if inp.targetNode.isTextInput ∨ inp.targetNode.contentEditableTrue then
      ({ activeElement := some inp.targetNode.id,
         activeElementInst := inp.targetInst,
         lastSelection := none,
         mouseDown := s.mouseDown }, none)
    else (s, none)
  else if inp.topLevelType = "topBlur" then
    ({ activeElement := none, activeElementInst := none,
       lastSelection := none, mouseDown := s.mouseDown }, none)
  else if inp.topLevelType = "topMouseDown" then
    ({ s with mouseDown := true }, none)
  else if inp.topLevelType = "topContextMenu" ∨
          inp.topLevelType = "topMouseUp" then
    constructSelectEvent inp { s with mouseDown := false }
  else if inp.topLevelType = "topSelectionChange" then
    if inp.skipSelectionChangeEvent then (s, none)
    else constructSelectEvent inp s
  else if inp.topLevelType = "topKeyDown" ∨
          inp.topLevelType = "topKeyUp" then
    constructSelectEvent inp s
  else (s, none)

/-- The extraction results of a step function over a sequence, filtered
to what actually reaches registered listeners: an extracted event is
delivered only when a listener for the select logical event exists in
the document scope at that step (`docListening`). -/
def deliveredEvents
    (step : SelectInput → SelectState → SelectState × Option SelectSynthetic)
    (inputs : List SelectInput) (s : SelectState) :
    List (Option SelectSynthetic) :=
  match inputs with
  | [] => []
  | i :: rest =>
    let r := step i s
    (if i.docListening then r.2 else none) :: deliveredEvents step rest r.1

/-!
## Simulator propagation choice (ReactTestUtils.makeSimulator)
-/

/-- The two propagation accumulation modes requested by the pipeline. -/
inductive PropagationMode where
  | twoPhase | direct
  deriving DecidableEq, Repr

/-- The propagation choice in `makeSimulator`: two-phase accumulation
when `dispatchConfig.phasedRegistrationNames` is set, direct
accumulation otherwise. -/
def simulatePropagationMode (c : DispatchConfig) : PropagationMode :=
  match c.phasedRegistrationNames with
  | some _ => PropagationMode.twoPhase
  | none => PropagationMode.direct

/-- Every logical event registered by the plugins in the excerpt: the
classifier's table plus the selection plugin's `select`. -/
def allEventTypes : List (String × DispatchConfig) :=
  simpleEventTypes ++ [("select", selectEventConfig)]

/-!
## Sample native-event inputs for concrete runs
-/

/-- A selection oracle whose reading never changes: every read of any
node yields the same structural snapshot. -/
def constantSel : Nat → Option SelSnapshot :=
  fun _ => some (SelSnapshot.range 3 3)

/-- A focus-in on a text-input element (id 1, fiber 10), with select
listeners present and the element focused in the platform. -/
def sampleFocus : SelectInput :=
  { topLevelType := "topFocus", targetInst := some 10,
    targetNode := { id := 1, isTextInput := true,
                    contentEditableTrue := false },
    docListening := true, activeElementGlobal := some 1,
    getSel := constantSel, skipSelectionChangeEvent := false }

/-- A pointer-down in the same environment as `sampleFocus`. -/
def sampleMouseDown : SelectInput :=
  { sampleFocus with topLevelType := "topMouseDown" }

/-- A pointer-up in the same environment as `sampleFocus`; the selection
oracle still reads the same constant snapshot. -/
def sampleMouseUp : SelectInput :=
  { sampleFocus with topLevelType := "topMouseUp" }

/-- A focus-out in the same environment as `sampleFocus`. -/
def sampleBlur : SelectInput :=
  { sampleFocus with topLevelType := "topBlur" }

/-- A key-up arriving while no select listener exists in the document
scope. -/
def sampleKeyUpNoListener : SelectInput :=
  { sampleFocus with topLevelType := "topKeyUp", docListening := false }

/-!
## Helper lemmas shared by the claim theorems
-/

/-- With no recorded focused element the guarded emission attempt does
nothing and leaves the state untouched. -/
theorem construct_inactive (inp : SelectInput) (s : SelectState)
    (h : s.activeElement = none) :
    constructSelectEvent inp s = (s, none) := by
  cases hmd : s.mouseDown <;> simp [constructSelectEvent, hmd, h]

/-- Any guard failure (pressed, no recorded element, or platform focus
mismatch) makes the emission attempt produce no event. -/
theorem construct_guard_none (inp : SelectInput) (s : SelectState)
    (h : s.mouseDown = true ∨ s.activeElement = none ∨
      inp.activeElementGlobal ≠ s.activeElement) :
    (constructSelectEvent inp s).2 = none := by
  cases hmd : s.mouseDown
  · cases hae : s.activeElement with
    | none => simp [constructSelectEvent, hmd, hae]
    | some a =>
      have hg : inp.activeElementGlobal ≠ some a := by
        rcases h with hm | ha | hg
        · rw [hmd] at hm; cases hm
        · rw [hae] at ha; cases ha
        · rw [hae] at hg; exact hg
      simp [constructSelectEvent, hmd, hae, hg]
  · simp [constructSelectEvent, hmd]

/-- The listener-presence short-circuit: with no select listener in the
document scope the selection plugin neither emits nor changes state. -/
theorem extract_no_listener (inp : SelectInput) (s : SelectState)
    (h : inp.docListening = false) :
    SelectEventPlugin.extractEvents inp s = (s, none) := by
  simp [SelectEventPlugin.extractEvents, h]

/-- While no focused element is recorded, every native kind other than a
focus-in keeps the recorded focused element absent and emits nothing. -/
theorem extract_preserves_inactive (inp : SelectInput) (s : SelectState)
    (h : s.activeElement = none) (hf : inp.topLevelType ≠ "topFocus") :
    (SelectEventPlugin.extractEvents inp s).1.activeElement = none ∧
    (SelectEventPlugin.extractEvents inp s).2 = none := by
  unfold SelectEventPlugin.extractEvents
  split_ifs with h1 h2 h3 h4 h5 h6 h7
  · exact ⟨h, rfl⟩
  · exact ⟨rfl, rfl⟩
  · exact ⟨h, rfl⟩
  · rw [construct_inactive inp { s with mouseDown := false } h]
    exact ⟨h, rfl⟩
  · exact ⟨h, rfl⟩
  · rw [construct_inactive inp s h]
    exact ⟨h, rfl⟩
  · rw [construct_inactive inp s h]
    exact ⟨h, rfl⟩
  · exact ⟨h, rfl⟩

/-- While no focused element is recorded, a run containing no focus-in
extracts nothing at any step. -/
theorem run_inactive_all_none (inputs : List SelectInput) :
    ∀ s : SelectState, s.activeElement = none →
    (∀ i ∈ inputs, i.topLevelType ≠ "topFocus") →
    (runSelect inputs s).2.all Option.isNone = true := by
  induction inputs with
  | nil => intro s _ _; rfl
  | cons i rest ih =>
    intro s h hf
    have hi := hf i (List.mem_cons_self i rest)
    have hstep := extract_preserves_inactive i s h hi
    simp [runSelect, hstep.2,
      ih _ hstep.1 (fun j hj => hf j (List.mem_cons_of_mem i hj))]

/-- For any step function, a run over inputs that all lack a select
listener delivers nothing to listeners. -/
theorem delivered_none_of_no_listener
    (step : SelectInput → SelectState → SelectState × Option SelectSynthetic)
    (inputs : List SelectInput) :
    ∀ s : SelectState, (∀ i ∈ inputs, i.docListening = false) →
    deliveredEvents step inputs s = List.replicate inputs.length none := by
  induction inputs with
  | nil => intro s _; rfl
  | cons i rest ih =>
    intro s h
    have hi := h i (List.mem_cons_self i rest)
    simp [deliveredEvents, hi, List.replicate_succ,
      ih _ (fun j hj => h j (List.mem_cons_of_mem i hj))]

/-- A run over inputs that all lack a select listener extracts nothing
at any step. -/
theorem run_no_listener_all_none (inputs : List SelectInput) :
    ∀ s : SelectState, (∀ i ∈ inputs, i.docListening = false) →
    (runSelect inputs s).2.all Option.isNone = true := by
  induction inputs with
  | nil => intro s _; rfl
  | cons i rest ih =>
    intro s h
    have hi := h i (List.mem_cons_self i rest)
    simp [runSelect, extract_no_listener i s hi,
      ih _ (fun j hj => h j (List.mem_cons_of_mem i hj))]

/-!
## Claim theorems
-/

/-- C3: every native event of the click kind whose button code is 2
(secondary/right button) yields no SyntheticEvent from the classifier
plugin (and no warning). -/
theorem claim_C3_right_click_discarded (targetInst : Option Nat)
    (nativeEvent : NativeEvent) (dev : Bool)
    (h : nativeEvent.button = 2) :
    SimpleEventPlugin.extractEvents "topClick" targetInst nativeEvent dev =
      (none, false) := by
  obtain ⟨b, c⟩ := nativeEvent
  have hb : b = 2 := h
  subst hb
  rfl

/-- Witness for C3 at a concrete right-button click. -/
theorem claim_C3_right_click_discarded_witness :
    SimpleEventPlugin.extractEvents "topClick" (some 1)
      { button := 2, charCode := 0 } true = (none, false) :=
  claim_C3_right_click_discarded (some 1)
    { button := 2, charCode := 0 } true rfl

/-- C4: every native key-press event whose decoded character code is 0
yields no SyntheticEvent from the classifier plugin (and no warning). -/
theorem claim_C4_zero_char_code_discarded (targetInst : Option Nat)
    (nativeEvent : NativeEvent) (dev : Bool)
    (h : getEventCharCode nativeEvent = 0) :
    SimpleEventPlugin.extractEvents "topKeyPress" targetInst nativeEvent
      dev = (none, false) := by
  obtain ⟨b, c⟩ := nativeEvent
  have hc : c = 0 := h
  subst hc
  rfl

/-- Witness for C4 at a concrete function-key key-press. -/
theorem claim_C4_zero_char_code_discarded_witness :
    SimpleEventPlugin.extractEvents "topKeyPress" (some 1)
      { button := 0, charCode := 0 } true = (none, false) :=
  claim_C4_zero_char_code_discarded (some 1)
    { button := 0, charCode := 0 } true rfl

/-- C10: a focus-in whose target node is neither a text-input element
nor contentEditable `true` produces no event and leaves the selection
plugin's entire state (recorded element, its UI node, last-selection
snapshot, pressed flag) unchanged. -/
theorem claim_C10_focus_non_text_noop (inp : SelectInput)
    (s : SelectState) (ht : inp.topLevelType = "topFocus")
    (h1 : inp.targetNode.isTextInput = false)
    (h2 : inp.targetNode.contentEditableTrue = false) :
    SelectEventPlugin.extractEvents inp s = (s, none) := by
  cases hd : inp.docListening <;>
    simp [SelectEventPlugin.extractEvents, hd, ht, h1, h2]

/-- Witness for C10: focus on a non-editable element (id 5). -/
theorem claim_C10_focus_non_text_noop_witness :
    SelectEventPlugin.extractEvents
      { topLevelType := "topFocus", targetInst := some 10,
        targetNode := { id := 5, isTextInput := false,
                        contentEditableTrue := false },
        docListening := true, activeElementGlobal := some 5,
        getSel := constantSel, skipSelectionChangeEvent := false }
      initialSelectState = (initialSelectState, none) :=
  claim_C10_focus_non_text_noop _ _ rfl rfl rfl

/-- C2: no synthetic event is produced by an emission attempt whose
guard finds the pressed flag set, no recorded focused element, or a
platform focus differing from the recorded one; the kinds that merely
attempt emission without clearing the pressed flag (selection-change,
key-down, key-up) therefore produce nothing while the pointer is
pressed, and all five attempt kinds produce nothing when no element is
recorded or the platform focus differs. -/
theorem claim_C2_emission_guards :
    (∀ (inp : SelectInput) (s : SelectState),
      s.mouseDown = true ∨ s.activeElement = none ∨
        inp.activeElementGlobal ≠ s.activeElement →
      (constructSelectEvent inp s).2 = none) ∧
    (∀ (inp : SelectInput) (s : SelectState),
      inp.topLevelType = "topSelectionChange" ∨
        inp.topLevelType = "topKeyDown" ∨
        inp.topLevelType = "topKeyUp" →
      s.mouseDown = true →
      (SelectEventPlugin.extractEvents inp s).2 = none) ∧
    (∀ (inp : SelectInput) (s : SelectState),
      inp.topLevelType = "topMouseUp" ∨
        inp.topLevelType = "topContextMenu" ∨
        inp.topLevelType = "topSelectionChange" ∨
        inp.topLevelType = "topKeyDown" ∨
        inp.topLevelType = "topKeyUp" →
      s.activeElement = none ∨
        inp.activeElementGlobal ≠ s.activeElement →
      (SelectEventPlugin.extractEvents inp s).2 = none) := by
  refine ⟨fun inp s h => construct_guard_none inp s h, ?_, ?_⟩
  · intro inp s ht hm
    cases hd : inp.docListening
    · rw [extract_no_listener inp s hd]
    · rcases ht with h | h | h <;>
        cases hsk : inp.skipSelectionChangeEvent <;>
          simp [SelectEventPlugin.extractEvents, hd, h, hsk,
            construct_guard_none inp s (Or.inl hm)]
  · intro inp s ht hg
    have hg' : s.activeElement = none ∨
        inp.activeElementGlobal ≠ s.activeElement := hg
    cases hd : inp.docListening
    · rw [extract_no_listener inp s hd]
    · rcases ht with h | h | h | h | h <;>
        cases hsk : inp.skipSelectionChangeEvent <;>
          simp [SelectEventPlugin.extractEvents, hd, h, hsk,
            construct_guard_none inp s (Or.inr hg'),
            construct_guard_none inp { s with mouseDown := false }
              (Or.inr hg')]

/-- Witness for C2: a key-up while the pointer is pressed produces
nothing. -/
theorem claim_C2_emission_guards_witness :
    (SelectEventPlugin.extractEvents
      { sampleFocus with topLevelType := "topKeyUp" }
      { initialSelectState with mouseDown := true }).2 = none :=
  claim_C2_emission_guards.2.1
    { sampleFocus with topLevelType := "topKeyUp" }
    { initialSelectState with mouseDown := true }
    (Or.inr (Or.inr rfl)) rfl

/-- C5: extraction never fails on an unrecognized kind: a kind with no
dispatch config yields no event and no warning, and a kind with a
dispatch config but no explicit switch case falls back to the generic
base shape (with two-phase propagation requested), warning exactly when
the build is a DEV build and the kind is absent from the
known-exhaustive allow-list — so in a release build nothing is ever
reported. -/
theorem claim_C5_unrecognized_kind_nonfatal :
    (∀ (t : String) (ti : Option Nat) (ne : NativeEvent) (dev : Bool),
      topLevelEventsToDispatchConfig.lookup t = none →
      SimpleEventPlugin.extractEvents t ti ne dev = (none, false)) ∧
    (∀ (t : String) (c : DispatchConfig) (ti : Option Nat)
      (ne : NativeEvent) (dev : Bool),
      topLevelEventsToDispatchConfig.lookup t = some c →
      t ∉ switchCaseKinds →
      SimpleEventPlugin.extractEvents t ti ne dev =
        (some { dispatchConfig := c, targetInst := ti,
                shape := EventShape.base, twoPhase := true },
         dev && !(decide (t ∈ knownHTMLTopLevelTypes)))) := by
  constructor
  · intro t ti ne dev h
    simp [SimpleEventPlugin.extractEvents, h]
  · intro t c ti ne dev h hnot
    simp only [switchCaseKinds, List.mem_append, List.mem_singleton,
      List.mem_cons, List.not_mem_nil, or_false] at hnot
    push_neg at hnot
    obtain ⟨⟨⟨⟨⟨⟨⟨⟨⟨hkp, hkd⟩, hfoc⟩, hclick⟩, hmouse⟩, hdrag⟩,
      htouch⟩, hanim⟩, htr, hsc, hwh⟩, hclip⟩ := hnot
    simp [SimpleEventPlugin.extractEvents, h, selectShape, hkp, hkd,
      hfoc, hclick, hmouse, hdrag, htouch, hanim, htr, hsc, hwh, hclip]

/-- Witness for C5 at the media kind `topAbort`: base shape, no warning
even in DEV (the kind is in the allow-list). -/
theorem claim_C5_unrecognized_kind_nonfatal_witness :
    SimpleEventPlugin.extractEvents "topAbort" (some 1)
      { button := 0, charCode := 0 } true =
      (some { dispatchConfig := addEventTypeNameToConfig "abort" false,
              targetInst := some 1, shape := EventShape.base,
              twoPhase := true },
       true && !(decide (("topAbort" : String) ∈ knownHTMLTopLevelTypes))) :=
  claim_C5_unrecognized_kind_nonfatal.2 "topAbort"
    (addEventTypeNameToConfig "abort" false) (some 1)
    { button := 0, charCode := 0 } true (by decide) (by decide)

/-- C7: for every logical event registered by the plugins in the
excerpt, the bubble registration name is `on` followed by the
capitalized logical name and the capture name is that bubble name
followed by `Capture`; and every classifier-declared logical event
depends on exactly the single native kind `top` followed by the
capitalized name. -/
theorem claim_C7_registration_names :
    (∀ p ∈ allEventTypes,
      p.2.phasedRegistrationNames =
        some { bubbled := "on" ++ capitalize p.1,
               captured := ("on" ++ capitalize p.1) ++ "Capture" }) ∧
    (∀ p ∈ simpleEventTypes,
      p.2.dependencies = ["top" ++ capitalize p.1]) := by
  constructor
  · decide
  · decide

/-- Witness for C7 at the logical event `click`. -/
theorem claim_C7_registration_names_witness :
    (("click", addEventTypeNameToConfig "click" true) :
        String × DispatchConfig).2.phasedRegistrationNames =
      some { bubbled := "on" ++ capitalize "click",
             captured := ("on" ++ capitalize "click") ++ "Capture" } :=
  claim_C7_registration_names.1
    ("click", addEventTypeNameToConfig "click" true) (by decide)

/-- C8: every registered logical event sets exactly one of
`phasedRegistrationNames` and `directRegistrationName`, and the
simulator's propagation choice is two-phase exactly when the phased
names are set and direct exactly when the direct name is set. -/
theorem claim_C8_propagation_mode :
    ∀ p ∈ allEventTypes,
      (p.2.phasedRegistrationNames.isSome =
        !p.2.directRegistrationName.isSome) ∧
      (simulatePropagationMode p.2 = PropagationMode.twoPhase ↔
        p.2.phasedRegistrationNames.isSome = true) ∧
      (simulatePropagationMode p.2 = PropagationMode.direct ↔
        p.2.directRegistrationName.isSome = true) := by
  decide

/-- Witness for C8 at the selection plugin's `select` logical event. -/
theorem claim_C8_propagation_mode_witness :
    (selectEventConfig.phasedRegistrationNames.isSome =
      !selectEventConfig.directRegistrationName.isSome) ∧
    (simulatePropagationMode selectEventConfig =
        PropagationMode.twoPhase ↔
      selectEventConfig.phasedRegistrationNames.isSome = true) ∧
    (simulatePropagationMode selectEventConfig =
        PropagationMode.direct ↔
      selectEventConfig.directRegistrationName.isSome = true) :=
  claim_C8_propagation_mode ("select", selectEventConfig) (by decide)

/-- Counterexample to C1 as stated: with select listeners present, a
focus-in on a text field, then pointer-down, then pointer-up, while the
selection oracle reads the identical snapshot at every step (so the
selection is unchanged between pointer-down and pointer-up), the
pointer-up nevertheless produces a synthetic event — the focus-in
cleared the stored snapshot, and the guarded comparison treats an absent
stored snapshot as changed. -/
theorem claim_C1_counterexample :
    (runSelect [sampleFocus, sampleMouseDown, sampleMouseUp]
        initialSelectState).2.map Option.isSome =
      [false, false, true] := by
  rfl

/-- C1 (amended): an emission attempt that passes the guards compares
the fresh structural snapshot with the stored one, and emits exactly
when the stored snapshot is absent or differs: when they agree nothing
is emitted and the state is untouched; otherwise the snapshot is
updated and one select-family event is returned, targeted at the
recorded focused UI node, with two-phase propagation requested.
Consequently focus-in on a text field followed by pointer-down then
pointer-up (guards passing) produces exactly one select event targeted
at the focused node even when the selection is unchanged, because the
focus-in cleared the stored snapshot. -/
theorem claim_C1_snapshot_comparison :
    (∀ (inp : SelectInput) (s : SelectState) (a : Nat),
      s.mouseDown = false → s.activeElement = some a →
      inp.activeElementGlobal = some a →
      (s.lastSelection = inp.getSel a → s.lastSelection ≠ none →
        constructSelectEvent inp s = (s, none)) ∧
      (s.lastSelection = none ∨ s.lastSelection ≠ inp.getSel a →
        constructSelectEvent inp s =
          ({ s with lastSelection := inp.getSel a },
           some { dispatchConfig := selectEventConfig,
                  targetInst := s.activeElementInst,
                  eventType := "select", target := some a,
                  twoPhase := true }))) ∧
    (∀ (i1 i2 i3 : SelectInput) (s0 : SelectState) (a : Nat)
      (ti : Option Nat),
      i1.docListening = true → i1.topLevelType = "topFocus" →
      i1.targetNode.isTextInput = true → i1.targetNode.id = a →
      i1.targetInst = ti →
      i2.docListening = true → i2.topLevelType = "topMouseDown" →
      i3.docListening = true → i3.topLevelType = "topMouseUp" →
      i3.activeElementGlobal = some a →
      (runSelect [i1, i2, i3] s0).2 =
        [none, none,
         some { dispatchConfig := selectEventConfig, targetInst := ti,
                eventType := "select", target := some a,
                twoPhase := true }]) := by
  constructor
  · intro inp s a hmd hae hglob
    constructor
    · intro hl hne
      cases hls : s.lastSelection with
      | none => exact absurd hls hne
      | some last =>
        rw [hls] at hl
        simp [constructSelectEvent, hmd, hae, hglob, hls, ← hl]
    · intro hch
      cases hls : s.lastSelection with
      | none => simp [constructSelectEvent, hmd, hae, hglob, hls]
      | some last =>
        have hne : inp.getSel a ≠ some last := by
          rcases hch with h | h
          · rw [hls] at h; cases h
          · exact fun he => h (hls.trans he.symm)
        simp [constructSelectEvent, hmd, hae, hglob, hls, hne]
  · intro i1 i2 i3 s0 a ti hd1 ht1 htext hid hti hd2 ht2 hd3 ht3 hglob
    simp [runSelect, SelectEventPlugin.extractEvents,
      constructSelectEvent, hd1, ht1, htext, hid, hti, hd2, ht2, hd3,
      ht3, hglob]

/-- Witness for C1 (amended): the emitted event of the concrete
focus-in / pointer-down / pointer-up run with an unchanged selection. -/
theorem claim_C1_snapshot_comparison_witness :
    (runSelect [sampleFocus, sampleMouseDown, sampleMouseUp]
        initialSelectState).2 =
      [none, none,
       some { dispatchConfig := selectEventConfig, targetInst := some 10,
              eventType := "select", target := some 1,
              twoPhase := true }] :=
  claim_C1_snapshot_comparison.2 sampleFocus sampleMouseDown sampleMouseUp
    initialSelectState 1 (some 10) rfl rfl rfl rfl rfl rfl rfl rfl rfl rfl

/-- Counterexample to C6 as stated: the sequence focus-in, pointer-down,
focus-out, focus-in, pointer-up contains a focus-out between the
pointer-down and the pointer-up, yet the pointer-up produces a
synthetic event, because the second focus-in re-recorded a focused
element and cleared the stored snapshot before the pointer-up. -/
theorem claim_C6_counterexample :
    (runSelect [sampleFocus, sampleMouseDown, sampleBlur, sampleFocus,
        sampleMouseUp] initialSelectState).2.map Option.isSome =
      [false, false, false, false, true] := by
  rfl

/-- C6 (amended): a focus-out that passes the listener-presence guard
clears the recorded focused element, its UI node and the last-selection
snapshot (the pressed flag is untouched) and produces no event;
consequently, after such a focus-out, every later native event —
any pointer-up included — produces no synthetic event as long as no
focus-in re-records a focused element, regardless of selection
changes. -/
theorem claim_C6_blur_clears :
    (∀ (inp : SelectInput) (s : SelectState),
      inp.docListening = true → inp.topLevelType = "topBlur" →
      SelectEventPlugin.extractEvents inp s =
        ({ activeElement := none, activeElementInst := none,
           lastSelection := none, mouseDown := s.mouseDown }, none)) ∧
    (∀ (blurInp : SelectInput) (rest : List SelectInput)
      (s : SelectState),
      blurInp.docListening = true → blurInp.topLevelType = "topBlur" →
      (∀ i ∈ rest, i.topLevelType ≠ "topFocus") →
      (runSelect (blurInp :: rest) s).2.all Option.isNone = true) := by
  constructor
  · intro inp s hd hb
    simp [SelectEventPlugin.extractEvents, hd, hb]
  · intro blurInp rest s hd hb hf
    have hclear : SelectEventPlugin.extractEvents blurInp s =
        ({ activeElement := none, activeElementInst := none,
           lastSelection := none, mouseDown := s.mouseDown }, none) := by
      simp [SelectEventPlugin.extractEvents, hd, hb]
    have hres := run_inactive_all_none rest
      { activeElement := none, activeElementInst := none,
        lastSelection := none, mouseDown := s.mouseDown } rfl hf
    simp [runSelect, hclear]
    simpa using hres

/-- Witness for C6 (amended): focus-out then pointer-down and
pointer-up (no focus-in) extracts nothing, starting from a state with a
recorded focused element. -/
theorem claim_C6_blur_clears_witness :
    (runSelect [sampleBlur, sampleMouseDown, sampleMouseUp]
        { activeElement := some 1, activeElementInst := some 10,
          lastSelection := none, mouseDown := false }).2.all
      Option.isNone = true :=
  claim_C6_blur_clears.2 sampleBlur [sampleMouseDown, sampleMouseUp]
    { activeElement := some 1, activeElementInst := some 10,
      lastSelection := none, mouseDown := false } rfl rfl (by decide)

/-- C9: the listener-presence check is a pure performance
short-circuit: over any sequence of native events during which no
select handler exists in the document scope, the guarded plugin
extracts nothing, and the events delivered to registered listeners are
the same as for the variant with the short-circuit removed (none reach
a listener either way, since none are present). -/
theorem claim_C9_listener_guard_refinement :
    ∀ (inputs : List SelectInput) (s : SelectState),
      (∀ i ∈ inputs, i.docListening = false) →
      ((runSelect inputs s).2.all Option.isNone = true) ∧
      deliveredEvents SelectEventPlugin.extractEvents inputs s =
        deliveredEvents SelectEventPlugin.extractEventsNoListenerGuard
          inputs s := by
  intro inputs s h
  refine ⟨run_no_listener_all_none inputs s h, ?_⟩
  rw [delivered_none_of_no_listener SelectEventPlugin.extractEvents
    inputs s h]
  rw [delivered_none_of_no_listener
    SelectEventPlugin.extractEventsNoListenerGuard inputs s h]

/-- Witness for C9: a key-up with no select listener present. -/
theorem claim_C9_listener_guard_refinement_witness :
    ((runSelect [sampleKeyUpNoListener] initialSelectState).2.all
        Option.isNone = true) ∧
    deliveredEvents SelectEventPlugin.extractEvents
        [sampleKeyUpNoListener] initialSelectState =
      deliveredEvents SelectEventPlugin.extractEventsNoListenerGuard
        [sampleKeyUpNoListener] initialSelectState :=
  claim_C9_listener_guard_refinement [sampleKeyUpNoListener]
    initialSelectState (by decide)

end ReactEvents
